import Mathlib

/-!
Shallow embedding of the triboferrin configuration-resolution core.

The embedded code is `src/config.rs` (struct `Args`, struct `Config`, their
`Debug` renderings, `Config::default`, `build_config_with_path`,
`build_config`) and the inline configuration merge plus token check in
`src/main.rs`.

The program reads at most one file and an environment snapshot; both are
passed explicitly here: the filesystem as a function from path to file
content, the environment as a record of the variables the program consults.
The TOML parser and the figment provider/merge machinery are third-party
collaborators; their contract is taken from the specification (file source:
missing file yields an empty partial view, syntax error or wrongly typed
field fails with an error carrying the path resp. the field name; merge:
field-granular last-write-wins in a fixed order, any source failure
propagates unchanged).
-/

namespace Triboferrin

/-! ## Data model (src/config.rs lines 13-76) -/

/-- CLI arguments of `config.rs` (`struct Args`). Every field is optional:
absent means the flag was not supplied. Paths are modelled as strings. -/
structure Args where
  config : Option String
  log_level : Option String
  discord_token : Option String
  discord_api_url : Option String
deriving DecidableEq

/-- The fully resolved configuration of `config.rs` (`struct Config`). -/
structure Config where
  log_level : String
  discord_token : String
  discord_api_url : Option String
deriving DecidableEq

/-- `Config::default` (config.rs lines 68-76). -/
def Config.defaultValue : Config :=
  { log_level := "info", discord_token := "", discord_api_url := none }

/-- The environment snapshot: the variables the program consults, each
possibly unset. `TRIBOFERRIN_`-prefixed variables other than these map to
field names unknown to the config structs and are ignored at extraction. -/
structure EnvSnapshot where
  triboferrin_log_level : Option String
  triboferrin_discord_token : Option String
  triboferrin_discord_api_url : Option String
  triboferrin_host : Option String
  triboferrin_port : Option String
  rust_log : Option String
deriving DecidableEq

/-! ## The file source collaborator -/

/-- A scalar TOML value, as far as the recognized keys are concerned. -/
inductive TomlValue where
  | str (s : String)
  | int (n : Int)
  | boolean (b : Bool)
deriving DecidableEq

/-- What the filesystem holds at a path: no file, a file that is not valid
TOML, or a parsed table of key/value pairs. -/
inductive FileContent where
  | absent
  | invalid
  | table (kvs : List (String × TomlValue))
deriving DecidableEq

/-- Errors of the figment collaborator surfaced by resolution: a syntax
error carrying the offending path, or a wrongly typed value carrying the
offending field name. -/
inductive FigmentError where
  | parseError (path : String)
  | typeError (field : String)
deriving DecidableEq

/-- The file source's partial view of the `config.rs` schema. -/
structure FileView where
  log_level : Option String
  discord_token : Option String
  discord_api_url : Option String
deriving DecidableEq

/-- First value bound to a key in a TOML table. -/
def lookupKey (kvs : List (String × TomlValue)) (k : String) : Option TomlValue :=
  match kvs with
  | [] => none
  | (k', v) :: rest => if k' = k then some v else lookupKey rest k

/-- Read an optional string-typed key: absent is fine, a non-string value
is a type error naming the field. -/
def getStrField (kvs : List (String × TomlValue)) (k : String) :
    Except FigmentError (Option String) :=
  match lookupKey kvs k with
  | none => .ok none
  | some (.str s) => .ok (some s)
  | some _ => .error (.typeError k)

/-- Modelled from the spec: the TOML file source collaborator used by
`build_config_with_path` (figment `Toml::file`, not part of this
repository). Per §4.1/§7 of the spec: a missing file yields an empty
partial view, a syntactically malformed file fails with an error carrying
the path, a wrongly typed recognized field fails with an error naming the
field, and unknown keys are ignored. Fields are checked in declaration
order of `Config`. -/
def loadFile (path : String) (content : FileContent) :
    Except FigmentError FileView :=
  match content with
  | .absent => .ok ⟨none, none, none⟩
  | .invalid => .error (.parseError path)
  | .table kvs =>
    match getStrField kvs "log_level" with
    | .error e => .error e
    | .ok ll =>
      match getStrField kvs "discord_token" with
      | .error e => .error e
      | .ok dt =>
        match getStrField kvs "discord_api_url" with
        | .error e => .error e
        | .ok du => .ok ⟨ll, dt, du⟩

/-! ## Partial views and the merge of config.rs (lines 92-115) -/

/-- A partial view of the `config.rs` schema: each field present or absent. -/
structure ConfigView where
  log_level : Option String
  discord_token : Option String
  discord_api_url : Option String
deriving DecidableEq

/-- One figment `merge` step: a present field of the later view `v`
replaces the accumulator's field, an absent field keeps it. -/
def mergeView (c : Config) (v : ConfigView) : Config where
  log_level := v.log_level.getD c.log_level
  discord_token := v.discord_token.getD c.discord_token
  discord_api_url := v.discord_api_url.or c.discord_api_url

/-- The file source's view. -/
def fileViewToView (fv : FileView) : ConfigView :=
  ⟨fv.log_level, fv.discord_token, fv.discord_api_url⟩

/-- `Env::prefixed("TRIBOFERRIN_")` restricted to the fields of `Config`. -/
def envPrefixedView (env : EnvSnapshot) : ConfigView :=
  ⟨env.triboferrin_log_level, env.triboferrin_discord_token,
    env.triboferrin_discord_api_url⟩

/-- `Env::raw().only(&["RUST_LOG"])` mapped onto `log_level` only. -/
def rustLogView (env : EnvSnapshot) : ConfigView :=
  ⟨env.rust_log, none, none⟩

/-- The CLI view serialized at config.rs lines 107-112: `config` is
explicitly dropped (`config: None`), the three schema fields are taken from
`args`, and an unset option is skipped (not serialized). -/
def cliView (args : Args) : ConfigView :=
  ⟨args.log_level, args.discord_token, args.discord_api_url⟩

/-- The path the file source reads: the `--config` override if given,
otherwise the supplied default path (config.rs lines 98-102). -/
def chosenPath (args : Args) (default_config_path : String) : String :=
  args.config.getD default_config_path

/-- The pure part of the merge once the file view is in hand: defaults
seeded from `Config::default`, then file, prefixed environment, `RUST_LOG`,
CLI, folded in that order. -/
def mergedOf (args : Args) (fv : FileView) (env : EnvSnapshot) : Config :=
  mergeView
    (mergeView
      (mergeView
        (mergeView Config.defaultValue (fileViewToView fv))
        (envPrefixedView env))
      (rustLogView env))
    (cliView args)

/-- `build_config_with_path` (config.rs lines 92-115): load the chosen
file, abort with the source's error unchanged on failure, otherwise fold
the views in ascending precedence and extract. -/
def build_config_with_path (args : Args) (default_config_path : String)
    (fs : String → FileContent) (env : EnvSnapshot) :
    Except FigmentError Config :=
  match loadFile (chosenPath args default_config_path)
      (fs (chosenPath args default_config_path)) with
  | .error e => .error e
  | .ok fv => .ok (mergedOf args fv env)

/-- `CONFIG_FILE_TOML` (config.rs line 10). -/
def CONFIG_FILE_TOML : String := "triboferrin-config.toml"

/-- `build_config` (config.rs lines 85-87). -/
def build_config (args : Args) (fs : String → FileContent)
    (env : EnvSnapshot) : Except FigmentError Config :=
  build_config_with_path args CONFIG_FILE_TOML fs env

/-! ## Sources and fields, for the precedence statements -/

/-- The five ranked sources of the config.rs merge. -/
inductive Source where
  | defaults
  | file
  | envPrefixed
  | envRustLog
  | cli
deriving DecidableEq, Fintype

/-- Precedence rank, lowest to highest (config.rs doc comment lines 78-83). -/
def Source.rank : Source → Nat
  | .defaults => 0
  | .file => 1
  | .envPrefixed => 2
  | .envRustLog => 3
  | .cli => 4

/-- The three configurable fields of the config.rs schema. -/
inductive Field where
  | logLevel
  | discordToken
  | discordApiUrl
deriving DecidableEq

/-- Field projection out of a partial view. -/
def ConfigView.get : ConfigView → Field → Option String
  | v, .logLevel => v.log_level
  | v, .discordToken => v.discord_token
  | v, .discordApiUrl => v.discord_api_url

/-- Field projection out of a resolved config, as an optional value so all
three fields live in one type (`discord_api_url` may genuinely be absent). -/
def Config.get : Config → Field → Option String
  | c, .logLevel => some c.log_level
  | c, .discordToken => some c.discord_token
  | c, .discordApiUrl => c.discord_api_url

/-- The Defaults source as a partial view: `Config::default` declares
`log_level = "info"`, `discord_token = ""` and leaves `discord_api_url`
at `None`. -/
def defaultsView : ConfigView := ⟨some "info", some "", none⟩

/-- The partial view each ranked source contributes, for fixed inputs. -/
def viewOf (args : Args) (fv : FileView) (env : EnvSnapshot) :
    Source → ConfigView
  | .defaults => defaultsView
  | .file => fileViewToView fv
  | .envPrefixed => envPrefixedView env
  | .envRustLog => rustLogView env
  | .cli => cliView args

/-- Last-write-wins over the sources in ascending rank: the value of the
highest-ranked source that declares the field, if any. -/
def lastWins (args : Args) (fv : FileView) (env : EnvSnapshot)
    (f : Field) : Option String :=
  ((viewOf args fv env .cli).get f).or
    (((viewOf args fv env .envRustLog).get f).or
      (((viewOf args fv env .envPrefixed).get f).or
        (((viewOf args fv env .file).get f).or
          ((viewOf args fv env .defaults).get f))))

/-! ## The inline merge of src/main.rs (lines 16-125) -/

/-- CLI arguments of `main.rs` (its local `struct Args`): the config.rs
fields plus `host`, `port` and the always-present flag `verbose`. -/
structure MainArgs where
  config : Option String
  host : Option String
  port : Option Nat
  log_level : Option String
  verbose : Bool
  discord_token : Option String
  discord_api_url : Option String
deriving DecidableEq

/-- The resolved configuration of `main.rs` (its local `struct Config`). -/
structure MainConfig where
  host : String
  port : Nat
  log_level : String
  discord_token : String
  discord_api_url : Option String
deriving DecidableEq

/-- `Config::default` of main.rs (lines 63-73). -/
def MainConfig.defaultValue : MainConfig :=
  { host := "localhost", port := 8080, log_level := "info",
    discord_token := "", discord_api_url := none }

/-- The file source's partial view of the main.rs schema. -/
structure MainFileView where
  host : Option String
  port : Option Nat
  log_level : Option String
  discord_token : Option String
  discord_api_url : Option String
deriving DecidableEq

/-- Read an optional `u16`-typed key: absent is fine, an integer in range
is accepted, anything else is a type error naming the field. -/
def getU16Field (kvs : List (String × TomlValue)) (k : String) :
    Except FigmentError (Option Nat) :=
  match lookupKey kvs k with
  | none => .ok none
  | some (.int n) =>
    if 0 ≤ n ∧ n < 65536 then .ok (some n.toNat) else .error (.typeError k)
  | some _ => .error (.typeError k)

/-- Modelled from the spec: the same TOML file source collaborator, targeted
at the main.rs schema (which additionally recognizes `host` and `port`).
Fields are checked in declaration order of main.rs's `Config`. -/
def mainLoadFile (path : String) (content : FileContent) :
    Except FigmentError MainFileView :=
  match content with
  | .absent => .ok ⟨none, none, none, none, none⟩
  | .invalid => .error (.parseError path)
  | .table kvs =>
    match getStrField kvs "host" with
    | .error e => .error e
    | .ok h =>
      match getU16Field kvs "port" with
      | .error e => .error e
      | .ok p =>
        match getStrField kvs "log_level" with
        | .error e => .error e
        | .ok ll =>
          match getStrField kvs "discord_token" with
          | .error e => .error e
          | .ok dt =>
            match getStrField kvs "discord_api_url" with
            | .error e => .error e
            | .ok du => .ok ⟨h, p, ll, dt, du⟩

/-- A partial view of the main.rs schema. -/
structure MainView where
  host : Option String
  port : Option Nat
  log_level : Option String
  discord_token : Option String
  discord_api_url : Option String
deriving DecidableEq

/-- One figment merge step on the main.rs schema. -/
def mainMergeView (c : MainConfig) (v : MainView) : MainConfig where
  host := v.host.getD c.host
  port := v.port.getD c.port
  log_level := v.log_level.getD c.log_level
  discord_token := v.discord_token.getD c.discord_token
  discord_api_url := v.discord_api_url.or c.discord_api_url

/-- The file view as a main.rs merge view. -/
def mainFileToView (fv : MainFileView) : MainView :=
  ⟨fv.host, fv.port, fv.log_level, fv.discord_token, fv.discord_api_url⟩

/-- `TRIBOFERRIN_PORT` is a string in the environment; figment's lenient
extraction parses it as a `u16` and fails with a type error otherwise. -/
def parsePortStr (s : String) : Except FigmentError Nat :=
  match s.toNat? with
  | some n => if n < 65536 then .ok n else .error (.typeError "port")
  | none => .error (.typeError "port")

/-- `Env::prefixed("TRIBOFERRIN_")` restricted to the main.rs schema.
A present but unparsable `TRIBOFERRIN_PORT` makes extraction fail. -/
def mainEnvPrefixedView (env : EnvSnapshot) : Except FigmentError MainView :=
  match env.triboferrin_port with
  | none =>
    .ok ⟨env.triboferrin_host, none, env.triboferrin_log_level,
      env.triboferrin_discord_token, env.triboferrin_discord_api_url⟩
  | some s =>
    match parsePortStr s with
    | .error e => .error e
    | .ok n =>
      .ok ⟨env.triboferrin_host, some n, env.triboferrin_log_level,
        env.triboferrin_discord_token, env.triboferrin_discord_api_url⟩

/-- The CLI view serialized at main.rs lines 106-114: `config` is dropped,
the schema fields are taken from `args`. The always-serialized `verbose`
flag maps to no field of main.rs's `Config` and is ignored at extraction. -/
def mainCliView (args : MainArgs) : MainView :=
  ⟨args.host, args.port, args.log_level, args.discord_token,
    args.discord_api_url⟩

/-- The pure part of the main.rs merge: defaults, then file, prefixed
environment, CLI — note there is no `RUST_LOG` step in main.rs. -/
def mainMergedOf (args : MainArgs) (fv : MainFileView) (ev : MainView) :
    MainConfig :=
  mainMergeView
    (mainMergeView
      (mainMergeView MainConfig.defaultValue (mainFileToView fv))
      ev)
    (mainCliView args)

/-- The inline configuration merge of `main` (main.rs lines 96-116). -/
def mainBuild (args : MainArgs) (default_config_path : String)
    (fs : String → FileContent) (env : EnvSnapshot) :
    Except FigmentError MainConfig :=
  match mainLoadFile (args.config.getD default_config_path)
      (fs (args.config.getD default_config_path)) with
  | .error e => .error e
  | .ok fv =>
    match mainEnvPrefixedView env with
    | .error e => .error e
    | .ok ev => .ok (mainMergedOf args fv ev)

/-- The fixed error message of the token check (main.rs lines 120-125). -/
def tokenErrMsg : String :=
  "Discord token is required. Set TRIBOFERRIN_DISCORD_TOKEN or use --discord-token"

/-- The downstream fitness check of `main` (main.rs lines 120-125): reject
a resolved configuration whose token is empty, with the fixed message. -/
def tokenCheck (c : MainConfig) : Except String MainConfig :=
  if c.discord_token = "" then .error tokenErrMsg else .ok c

/-! ## Textual renderings (the Debug formatting paths) -/

/-- Rust `Debug` escaping of one character inside a quoted string. -/
def rustCharEscape (c : Char) : String :=
  if c = '"' then "\\\""
  else if c = '\\' then "\\\\"
  else if c = '\n' then "\\n"
  else if c = '\t' then "\\t"
  else if c = '\r' then "\\r"
  else c.toString

/-- Rust `Debug` rendering of a string: quoted and escaped. -/
def rustStrDebug (s : String) : String :=
  "\"" ++ String.join (s.data.map rustCharEscape) ++ "\""

/-- Rust `Debug` rendering of an optional string. -/
def optStrDebug (o : Option String) : String :=
  match o with
  | none => "None"
  | some s => "Some(" ++ rustStrDebug s ++ ")"

/-- `Config::fmt` of config.rs (lines 58-66): `debug_struct` output with the
token field rendered as the fixed marker, the value itself never read. -/
def configDebugFmt (c : Config) : String :=
  "Config \x7b log_level: " ++ rustStrDebug c.log_level ++
    ", discord_token: " ++ rustStrDebug "[REDACTED]" ++
    ", discord_api_url: " ++ optStrDebug c.discord_api_url ++ " \x7d"

/-- `Args::fmt` of config.rs (lines 37-49): the token is mapped through
`map` to the fixed marker, so only its presence is visible. -/
def argsDebugFmt (a : Args) : String :=
  "Args \x7b config: " ++ optStrDebug a.config ++
    ", log_level: " ++ optStrDebug a.log_level ++
    ", discord_token: " ++ optStrDebug (a.discord_token.map (fun _ => "[REDACTED]")) ++
    ", discord_api_url: " ++ optStrDebug a.discord_api_url ++ " \x7d"

/-- The derived `Debug` of main.rs's local `Config` (line 54), the rendering
`main` sends to the log sink at line 118: every field verbatim, the token
included. -/
def mainConfigDebugFmt (c : MainConfig) : String :=
  "Config \x7b host: " ++ rustStrDebug c.host ++
    ", port: " ++ toString c.port ++
    ", log_level: " ++ rustStrDebug c.log_level ++
    ", discord_token: " ++ rustStrDebug c.discord_token ++
    ", discord_api_url: " ++ optStrDebug c.discord_api_url ++ " \x7d"

/-- Is `needle` a prefix of `hay`? (Boolean, on character lists.) -/
def isPrefixOfL : List Char → List Char → Bool
  | [], _ => true
  | _ :: _, [] => false
  | a :: as, b :: bs => a == b && isPrefixOfL as bs

/-- Is `needle` a contiguous substring of `hay`? -/
def containsSub (needle : List Char) : List Char → Bool
  | [] => isPrefixOfL needle []
  | b :: t => isPrefixOfL needle (b :: t) || containsSub needle t

/-! ## Derived definitions and concrete inputs used in the statements -/

/-- The merge with the file source dropped entirely: defaults, prefixed
environment, `RUST_LOG`, CLI. -/
def build_config_no_file (args : Args) (env : EnvSnapshot) : Config :=
  mergeView
    (mergeView
      (mergeView Config.defaultValue (envPrefixedView env))
      (rustLogView env))
    (cliView args)

/-- Replace only the `RUST_LOG` entry of an environment snapshot. -/
def setRustLog (env : EnvSnapshot) (r : Option String) : EnvSnapshot :=
  { env with rust_log := r }

/-- Replace only the `--discord-token` entry of a main.rs argument record. -/
def setTokenM (args : MainArgs) (t : Option String) : MainArgs :=
  { args with discord_token := t }

/-- Replace only the `--discord-token` entry of a config.rs argument record. -/
def setTokenA (args : Args) (t : Option String) : Args :=
  { args with discord_token := t }

/-- The restriction of a main.rs argument record to the config.rs fields. -/
def margsToArgs (m : MainArgs) : Args :=
  ⟨m.config, m.log_level, m.discord_token, m.discord_api_url⟩

/-- No CLI flags supplied. -/
def noArgs : Args := ⟨none, none, none, none⟩

/-- No CLI flags supplied, main.rs schema. -/
def noMainArgs : MainArgs := ⟨none, none, none, none, false, none, none⟩

/-- No relevant environment variable set. -/
def emptyEnv : EnvSnapshot := ⟨none, none, none, none, none, none⟩

/-- A filesystem with no files at all. -/
def emptyFs : String → FileContent := fun _ => .absent

/-- The round-trip config file of the spec: all three fields set. -/
def roundTripTable : List (String × TomlValue) :=
  [("log_level", .str "trace"), ("discord_token", .str "file_token"),
    ("discord_api_url", .str "https://file.example.com")]

/-- A filesystem holding exactly the round-trip file at the well-known
default path. -/
def roundTripFs : String → FileContent := fun p =>
  if p = CONFIG_FILE_TOML then .table roundTripTable else .absent

/-- An environment with only `RUST_LOG` set. -/
def rustLogOnlyEnv : EnvSnapshot := ⟨none, none, none, none, none, some "debug"⟩

/-- A resolved main.rs configuration holding a secret token. -/
def leakedMainConfig : MainConfig :=
  ⟨"localhost", 8080, "info", "super_secret_token", none⟩

/-- Concrete arguments exercising the precedence fold: only the API URL is
set on the CLI. -/
def c1Args : Args := ⟨none, none, none, some "https://cli.example.com"⟩

/-- Concrete environment exercising the precedence fold:
`TRIBOFERRIN_LOG_LEVEL=warn`, `TRIBOFERRIN_DISCORD_TOKEN=env_token`,
`RUST_LOG=debug`. -/
def c1Env : EnvSnapshot :=
  ⟨some "warn", some "env_token", none, none, none, some "debug"⟩

/-- Concrete filesystem exercising the precedence fold: every path holds a
file setting `log_level` and `discord_token`. -/
def c1Fs : String → FileContent := fun _ =>
  .table [("log_level", .str "trace"), ("discord_token", .str "file_token")]

/-- The file view the concrete precedence filesystem parses to. -/
def c1Fv : FileView := ⟨some "trace", some "file_token", none⟩

/-- The resolution of the concrete precedence inputs. -/
def c1Res : Config := ⟨"debug", "env_token", some "https://cli.example.com"⟩

/-- A TOML table whose `log_level` key holds an integer, not a string. -/
def badLogLevelTable : List (String × TomlValue) := [("log_level", .int 42)]

/-- A filesystem holding the wrongly typed file at every path. -/
def badFs : String → FileContent := fun _ => .table badLogLevelTable

/-- A filesystem holding a file only at the explicit override path. -/
def customFs : String → FileContent := fun p =>
  if p = "custom.toml" then .table [("discord_token", .str "custom_token")]
  else .absent

/-- Arguments supplying only an explicit `--config` override path. -/
def customPathArgs : Args := ⟨some "custom.toml", none, none, none⟩

/-! ## Helper lemmas -/

theorem opt_or_none (a : Option String) : a.or none = a := by
  cases a <;> rfl

theorem opt_none_or (a : Option String) : Option.or none a = a := rfl

theorem opt_or_some_getD (a : Option String) (d : String) :
    a.or (some d) = some (a.getD d) := by
  cases a <;> rfl

/-- Unfolding the successful branch of `build_config_with_path`. -/
theorem build_ok_mergedOf (args : Args) (d : String)
    (fs : String → FileContent) (env : EnvSnapshot) (fv : FileView)
    (c : Config)
    (hload : loadFile (chosenPath args d) (fs (chosenPath args d)) = .ok fv)
    (hbuild : build_config_with_path args d fs env = .ok c) :
    c = mergedOf args fv env := by
  unfold build_config_with_path at hbuild
  rw [hload] at hbuild
  exact (Except.ok.inj hbuild).symm

theorem mergedOf_log_level (args : Args) (fv : FileView) (env : EnvSnapshot) :
    (mergedOf args fv env).log_level =
      args.log_level.getD (env.rust_log.getD
        (env.triboferrin_log_level.getD (fv.log_level.getD "info"))) := rfl

theorem mergedOf_discord_token (args : Args) (fv : FileView)
    (env : EnvSnapshot) :
    (mergedOf args fv env).discord_token =
      args.discord_token.getD (env.triboferrin_discord_token.getD
        (fv.discord_token.getD "")) := rfl

theorem mergedOf_discord_api_url (args : Args) (fv : FileView)
    (env : EnvSnapshot) :
    (mergedOf args fv env).discord_api_url =
      args.discord_api_url.or (env.triboferrin_discord_api_url.or
        fv.discord_api_url) := by
  show args.discord_api_url.or (env.triboferrin_discord_api_url.or
    (fv.discord_api_url.or none)) = _
  rw [opt_or_none]

/-! ## Claims -/

/-- C7: resolving with a config file holding `log_level = "trace"`,
`discord_token = "file_token"`, `discord_api_url = "https://file.example.com"`
at the well-known default path, with no CLI flags and no relevant
environment variables set, reproduces exactly those three file values. -/
theorem c7_round_trip_through_file :
    build_config noArgs roundTripFs emptyEnv =
      .ok ⟨"trace", "file_token", some "https://file.example.com"⟩ := rfl

/-- C5: a nonexistent file at the chosen path is not an error — the result
equals the merge with no file source at all, for identical CLI arguments
and environment. -/
theorem c5_missing_file_is_no_file (args : Args) (d : String)
    (fs : String → FileContent) (env : EnvSnapshot)
    (h : fs (chosenPath args d) = FileContent.absent) :
    build_config_with_path args d fs env =
      .ok (build_config_no_file args env) := by
  unfold build_config_with_path
  rw [h]
  rfl

/-- Witness for C5 at a concrete input: the filesystem is empty, so the
chosen path is absent and resolution succeeds with the no-file merge. -/
theorem c5_missing_file_is_no_file_witness :
    emptyFs (chosenPath noArgs "triboferrin-config.toml")
        = FileContent.absent ∧
    build_config_with_path noArgs "triboferrin-config.toml" emptyFs emptyEnv
        = .ok (build_config_no_file noArgs emptyEnv) :=
  ⟨rfl, c5_missing_file_is_no_file noArgs "triboferrin-config.toml"
    emptyFs emptyEnv rfl⟩

/-- C6: a field left unset by every source equals its documented default in
the merged result: `log_level = "info"`, `discord_token = ""` (its declared
default), `discord_api_url = none`. -/
theorem c6_unset_fields_get_defaults (args : Args) (d : String)
    (fs : String → FileContent) (env : EnvSnapshot) (fv : FileView)
    (c : Config)
    (hload : loadFile (chosenPath args d) (fs (chosenPath args d)) = .ok fv)
    (hbuild : build_config_with_path args d fs env = .ok c) :
    (args.log_level = none → env.rust_log = none →
      env.triboferrin_log_level = none → fv.log_level = none →
      c.log_level = "info") ∧
    (args.discord_token = none → env.triboferrin_discord_token = none →
      fv.discord_token = none → c.discord_token = "") ∧
    (args.discord_api_url = none → env.triboferrin_discord_api_url = none →
      fv.discord_api_url = none → c.discord_api_url = none) := by
  have hc := build_ok_mergedOf args d fs env fv c hload hbuild
  subst hc
  refine ⟨?_, ?_, ?_⟩
  · intro h1 h2 h3 h4
    rw [mergedOf_log_level, h1, h2, h3, h4]
    rfl
  · intro h1 h2 h3
    rw [mergedOf_discord_token, h1, h2, h3]
    rfl
  · intro h1 h2 h3
    rw [mergedOf_discord_api_url, h1, h2, h3]
    rfl

/-- Witness for C6 at a concrete input: nothing is set anywhere, and all
three fields come out at their documented defaults. -/
theorem c6_unset_fields_get_defaults_witness :
    loadFile (chosenPath noArgs "p") (emptyFs (chosenPath noArgs "p"))
        = .ok ⟨none, none, none⟩ ∧
    build_config_with_path noArgs "p" emptyFs emptyEnv
        = .ok Config.defaultValue ∧
    Config.defaultValue.log_level = "info" ∧
    Config.defaultValue.discord_token = "" ∧
    Config.defaultValue.discord_api_url = none := by
  refine ⟨rfl, rfl, ?_, ?_, ?_⟩
  · exact (c6_unset_fields_get_defaults noArgs "p" emptyFs emptyEnv
      ⟨none, none, none⟩ Config.defaultValue rfl rfl).1 rfl rfl rfl rfl
  · exact (c6_unset_fields_get_defaults noArgs "p" emptyFs emptyEnv
      ⟨none, none, none⟩ Config.defaultValue rfl rfl).2.1 rfl rfl rfl
  · exact (c6_unset_fields_get_defaults noArgs "p" emptyFs emptyEnv
      ⟨none, none, none⟩ Config.defaultValue rfl rfl).2.2 rfl rfl rfl

/-- C2: with no `--log-level` flag, a set `RUST_LOG` decides the resolved
`log_level` whatever the `TRIBOFERRIN_LOG_LEVEL` variable holds; and the
`RUST_LOG` entry influences no field other than `log_level` — changing it
arbitrarily leaves `discord_token` and `discord_api_url` (and the error
behavior) unchanged. -/
theorem c2_rust_log_wins_and_only_log_level (args : Args) (d : String)
    (fs : String → FileContent) (env : EnvSnapshot) (c : Config) (v : String)
    (hcli : args.log_level = none) (hrl : env.rust_log = some v)
    (hbuild : build_config_with_path args d fs env = .ok c) :
    c.log_level = v ∧
    ∀ r, Except.map (fun cfg => (cfg.discord_token, cfg.discord_api_url))
        (build_config_with_path args d fs (setRustLog env r)) =
      Except.map (fun cfg => (cfg.discord_token, cfg.discord_api_url))
        (build_config_with_path args d fs env) := by
  constructor
  · cases hld : loadFile (chosenPath args d) (fs (chosenPath args d)) with
    | error e =>
      unfold build_config_with_path at hbuild
      rw [hld] at hbuild
      exact Except.noConfusion hbuild
    | ok fv =>
      have hc := build_ok_mergedOf args d fs env fv c hld hbuild
      subst hc
      rw [mergedOf_log_level, hcli, hrl]
      rfl
  · intro r
    unfold build_config_with_path
    cases hld : loadFile (chosenPath args d) (fs (chosenPath args d)) with
    | error e => rfl
    | ok fv =>
      show Except.ok ((mergedOf args fv (setRustLog env r)).discord_token,
          (mergedOf args fv (setRustLog env r)).discord_api_url)
        = Except.ok ((mergedOf args fv env).discord_token,
          (mergedOf args fv env).discord_api_url)
      rw [mergedOf_discord_token, mergedOf_discord_api_url,
        mergedOf_discord_token, mergedOf_discord_api_url]
      rfl

/-- Witness for C2 at a concrete input: `TRIBOFERRIN_LOG_LEVEL=warn` and
`RUST_LOG=debug`, no CLI flags, no file — the resolved level is `debug`. -/
theorem c2_rust_log_wins_witness :
    noArgs.log_level = none ∧
    (⟨some "warn", none, none, none, none, some "debug"⟩
        : EnvSnapshot).rust_log = some "debug" ∧
    build_config_with_path noArgs "p" emptyFs
        ⟨some "warn", none, none, none, none, some "debug"⟩
      = .ok ⟨"debug", "", none⟩ ∧
    (⟨"debug", "", none⟩ : Config).log_level = "debug" :=
  ⟨rfl, rfl, rfl,
    (c2_rust_log_wins_and_only_log_level noArgs "p" emptyFs
      ⟨some "warn", none, none, none, none, some "debug"⟩
      ⟨"debug", "", none⟩ "debug" rfl rfl rfl).1⟩

/-- Last-write-wins characterization of the merge: each resolved field is
the value of the highest-ranked source that declares it. -/
theorem mergedOf_get_lastWins (args : Args) (fv : FileView)
    (env : EnvSnapshot) (f : Field) :
    (mergedOf args fv env).get f = lastWins args fv env f := by
  cases f
  · show some ((mergedOf args fv env).log_level) = _
    rw [mergedOf_log_level]
    show _ = args.log_level.or (env.rust_log.or
      (env.triboferrin_log_level.or (fv.log_level.or (some "info"))))
    rw [opt_or_some_getD, opt_or_some_getD, opt_or_some_getD,
      opt_or_some_getD]
  · show some ((mergedOf args fv env).discord_token) = _
    rw [mergedOf_discord_token]
    show _ = args.discord_token.or (Option.or none
      (env.triboferrin_discord_token.or (fv.discord_token.or (some ""))))
    rw [opt_none_or, opt_or_some_getD, opt_or_some_getD, opt_or_some_getD]
  · show (mergedOf args fv env).discord_api_url = _
    rw [mergedOf_discord_api_url]
    show _ = args.discord_api_url.or (Option.or none
      (env.triboferrin_discord_api_url.or (fv.discord_api_url.or none)))
    rw [opt_none_or, opt_or_none]

/-- C1: the merge is field-granular last-write-wins in the fixed order
Defaults < File < Env(TRIBOFERRIN_) < Env(RUST_LOG) < CLI. First conjunct:
every resolved field equals the value of the highest-ranked source that
declares it (so a present value always replaces lower-ranked values and an
absent value never overwrites a present one). Second conjunct: for every
pair of sources A strictly below B and every field, if B declares a value
and no source above B declares one, the merged result carries B's value —
never A's. -/
theorem c1_precedence_last_write_wins (args : Args) (d : String)
    (fs : String → FileContent) (env : EnvSnapshot) (fv : FileView)
    (c : Config)
    (hload : loadFile (chosenPath args d) (fs (chosenPath args d)) = .ok fv)
    (hbuild : build_config_with_path args d fs env = .ok c) :
    (∀ f : Field, c.get f = lastWins args fv env f) ∧
    (∀ (f : Field) (A B : Source) (v : String), A.rank < B.rank →
      (viewOf args fv env B).get f = some v →
      (∀ C : Source, B.rank < C.rank → (viewOf args fv env C).get f = none) →
      c.get f = some v) := by
  have hc := build_ok_mergedOf args d fs env fv c hload hbuild
  subst hc
  refine ⟨mergedOf_get_lastWins args fv env, ?_⟩
  intro f A B v _ hB habove
  rw [mergedOf_get_lastWins args fv env f]
  unfold lastWins
  cases B
  · rw [habove .file (by decide), habove .envPrefixed (by decide),
      habove .envRustLog (by decide), habove .cli (by decide), hB]
    rfl
  · rw [habove .envPrefixed (by decide), habove .envRustLog (by decide),
      habove .cli (by decide), hB]
    rfl
  · rw [habove .envRustLog (by decide), habove .cli (by decide), hB]
    rfl
  · rw [habove .cli (by decide), hB]
    rfl
  · rw [hB]
    rfl

/-- Witness for C1 at a concrete input: file, prefixed environment,
`RUST_LOG` and CLI all contribute; for the token field the prefixed
environment is the highest declaring source and its value wins over the
file's. -/
theorem c1_precedence_last_write_wins_witness :
    loadFile (chosenPath c1Args "p") (c1Fs (chosenPath c1Args "p"))
        = .ok c1Fv ∧
    build_config_with_path c1Args "p" c1Fs c1Env = .ok c1Res ∧
    Source.file.rank < Source.envPrefixed.rank ∧
    (viewOf c1Args c1Fv c1Env .envPrefixed).get .discordToken
        = some "env_token" ∧
    c1Res.get .discordToken = some "env_token" := by
  refine ⟨rfl, rfl, by decide, rfl, ?_⟩
  exact (c1_precedence_last_write_wins c1Args "p" c1Fs c1Env c1Fv c1Res
      rfl rfl).2 .discordToken .file .envPrefixed "env_token"
    (by decide) rfl (by decide)

/-- C4: a failing file source aborts the whole resolution with that very
error, unchanged; and a file whose `log_level` key holds a non-string value
makes the file source fail with a type error naming `log_level` — the merge
never silently falls back to the default for the malformed field. -/
theorem c4_malformed_file_fails (args : Args) (d : String)
    (fs : String → FileContent) (env : EnvSnapshot) (e : FigmentError)
    (p : String) (kvs : List (String × TomlValue)) (n : Int) :
    (loadFile (chosenPath args d) (fs (chosenPath args d)) = .error e →
      build_config_with_path args d fs env = .error e) ∧
    (lookupKey kvs "log_level" = some (.int n) →
      loadFile p (.table kvs) = .error (.typeError "log_level")) := by
  constructor
  · intro h
    unfold build_config_with_path
    rw [h]
  · intro h
    simp only [loadFile, getStrField, h]

/-- Witness for C4 at a concrete input: a file holding `log_level = 42`
makes the source and the whole resolution fail with a type error naming
`log_level`. -/
theorem c4_malformed_file_fails_witness :
    lookupKey badLogLevelTable "log_level" = some (.int 42) ∧
    loadFile "bad.toml" (.table badLogLevelTable)
        = .error (.typeError "log_level") ∧
    loadFile (chosenPath noArgs "bad.toml")
        (badFs (chosenPath noArgs "bad.toml"))
        = .error (.typeError "log_level") ∧
    build_config_with_path noArgs "bad.toml" badFs emptyEnv
        = .error (.typeError "log_level") := by
  refine ⟨rfl, ?_, rfl, ?_⟩
  · exact (c4_malformed_file_fails noArgs "bad.toml" badFs emptyEnv
      (.typeError "log_level") "bad.toml" badLogLevelTable 42).2 rfl
  · exact (c4_malformed_file_fails noArgs "bad.toml" badFs emptyEnv
      (.typeError "log_level") "bad.toml" badLogLevelTable 42).1 rfl

/-- Two resolutions reading equal file content at their chosen paths, with
equal non-path CLI fields, are equal. -/
theorem build_config_frame (a1 a2 : Args) (d1 d2 : String)
    (fs1 fs2 : String → FileContent) (env : EnvSnapshot)
    (hll : a1.log_level = a2.log_level)
    (hdt : a1.discord_token = a2.discord_token)
    (hdu : a1.discord_api_url = a2.discord_api_url)
    (hp : chosenPath a1 d1 = chosenPath a2 d2)
    (hfs : fs1 (chosenPath a1 d1) = fs2 (chosenPath a2 d2)) :
    build_config_with_path a1 d1 fs1 env =
      build_config_with_path a2 d2 fs2 env := by
  have hcli : cliView a1 = cliView a2 := by
    unfold cliView
    rw [hll, hdt, hdu]
  unfold build_config_with_path
  rw [hfs, hp]
  cases loadFile (chosenPath a2 d2) (fs2 (chosenPath a2 d2)) with
  | error e => rfl
  | ok fv =>
    unfold mergedOf
    rw [hcli]

/-- C9: the `--config` argument influences the result only by selecting
which file is read. First conjunct: with an explicit `--config` path the
default path is irrelevant. Second conjunct: any two resolutions with equal
non-path CLI fields whose chosen paths coincide and read equal file content
are equal — the path is never merged in as a field. -/
theorem c9_config_path_only_selects_file (a1 a2 : Args) (d1 d2 : String)
    (fs1 fs2 : String → FileContent) (env : EnvSnapshot) (p : String) :
    (a1.config = some p →
      build_config_with_path a1 d1 fs1 env
        = build_config_with_path a1 d2 fs1 env) ∧
    (a1.log_level = a2.log_level → a1.discord_token = a2.discord_token →
      a1.discord_api_url = a2.discord_api_url →
      chosenPath a1 d1 = chosenPath a2 d2 →
      fs1 (chosenPath a1 d1) = fs2 (chosenPath a2 d2) →
      build_config_with_path a1 d1 fs1 env
        = build_config_with_path a2 d2 fs2 env) := by
  constructor
  · intro hc
    refine build_config_frame a1 a1 d1 d2 fs1 fs1 env rfl rfl rfl ?_ ?_
    · unfold chosenPath
      rw [hc]
      rfl
    · unfold chosenPath
      rw [hc]
      rfl
  · exact build_config_frame a1 a2 d1 d2 fs1 fs2 env

/-- Witness for C9 at a concrete input: with `--config custom.toml`, two
different default paths yield the same resolution, which carries the
custom file's token. -/
theorem c9_config_path_only_selects_file_witness :
    customPathArgs.config = some "custom.toml" ∧
    build_config_with_path customPathArgs "x" customFs emptyEnv
        = build_config_with_path customPathArgs "y" customFs emptyEnv ∧
    build_config_with_path customPathArgs "x" customFs emptyEnv
        = .ok ⟨"info", "custom_token", none⟩ :=
  ⟨rfl,
    (c9_config_path_only_selects_file customPathArgs customPathArgs "x" "y"
      customFs customFs emptyEnv "custom.toml").1 rfl,
    rfl⟩

/-- C8: the merge itself never fails on an empty token — replacing the
`--discord-token` argument by anything (including an explicit empty string
or nothing) never changes whether resolution succeeds, in either merge;
the downstream check of `main` rejects exactly the configurations whose
resolved token is empty; and when it rejects, the error is the fixed
descriptive message, independent of the configuration's contents. -/
theorem c8_empty_token_checked_downstream (margs : MainArgs) (a : Args)
    (d : String) (fs : String → FileContent) (env : EnvSnapshot)
    (t u : Option String) (c : MainConfig) (e : String) :
    ((mainBuild (setTokenM margs t) d fs env).isOk
        = (mainBuild margs d fs env).isOk) ∧
    ((build_config_with_path (setTokenA a u) d fs env).isOk
        = (build_config_with_path a d fs env).isOk) ∧
    ((tokenCheck c).isOk = true ↔ ¬ c.discord_token = "") ∧
    (tokenCheck c = .error e → e = tokenErrMsg) := by
  refine ⟨?_, ?_, ?_, ?_⟩
  · unfold mainBuild
    simp only [setTokenM]
    cases mainLoadFile (margs.config.getD d) (fs (margs.config.getD d)) with
    | error _ => rfl
    | ok fv =>
      cases mainEnvPrefixedView env with
      | error _ => rfl
      | ok ev => rfl
  · unfold build_config_with_path chosenPath
    simp only [setTokenA]
    cases loadFile (a.config.getD d) (fs (a.config.getD d)) with
    | error _ => rfl
    | ok fv => rfl
  · unfold tokenCheck
    by_cases h : c.discord_token = ""
    · rw [if_pos h]
      simp [Except.isOk, Except.toBool, h]
    · rw [if_neg h]
      simp [Except.isOk, Except.toBool, h]
  · intro h
    unfold tokenCheck at h
    by_cases hc : c.discord_token = ""
    · rw [if_pos hc] at h
      exact (Except.error.inj h).symm
    · rw [if_neg hc] at h
      exact Except.noConfusion h

/-- Witness for C8 at a concrete input: an explicitly supplied empty token
resolves to the empty string and is rejected with the fixed message,
exactly like a token left unset everywhere. -/
theorem c8_empty_token_checked_downstream_witness :
    mainBuild (setTokenM noMainArgs (some "")) "p" emptyFs emptyEnv
        = .ok ⟨"localhost", 8080, "info", "", none⟩ ∧
    mainBuild noMainArgs "p" emptyFs emptyEnv
        = .ok ⟨"localhost", 8080, "info", "", none⟩ ∧
    (mainBuild (setTokenM noMainArgs (some "")) "p" emptyFs emptyEnv).isOk
        = (mainBuild noMainArgs "p" emptyFs emptyEnv).isOk ∧
    tokenCheck ⟨"localhost", 8080, "info", "", none⟩ = .error tokenErrMsg ∧
    ((tokenCheck ⟨"localhost", 8080, "info", "", none⟩).isOk = true
        ↔ ¬ (⟨"localhost", 8080, "info", "", none⟩
              : MainConfig).discord_token = "") ∧
    tokenErrMsg = tokenErrMsg :=
  have h := c8_empty_token_checked_downstream noMainArgs noArgs "p" emptyFs
    emptyEnv (some "") (some "") ⟨"localhost", 8080, "info", "", none⟩
    tokenErrMsg
  ⟨rfl, rfl, h.1, rfl, h.2.2.1, h.2.2.2 rfl⟩

/-- C3 evaluation: the `Debug` renderings of config.rs do redact — the
rendering of a `Config` and of an `Args` holding the secret token does not
contain the token and does contain the fixed marker — but main.rs's local
`Config` uses a derived `Debug` and its rendering, logged by `main` at the
`tracing::info` sink, contains the literal token and no marker: a
formatting path that reaches a log sink bypasses the redaction. -/
theorem c3_main_debug_bypasses_redaction :
    containsSub "super_secret_token".data
        (mainConfigDebugFmt leakedMainConfig).data = true ∧
    containsSub "[REDACTED]".data
        (mainConfigDebugFmt leakedMainConfig).data = false ∧
    containsSub "super_secret_token".data
        (configDebugFmt ⟨"info", "super_secret_token", none⟩).data = false ∧
    containsSub "[REDACTED]".data
        (configDebugFmt ⟨"info", "super_secret_token", none⟩).data = true ∧
    containsSub "super_secret_token".data
        (argsDebugFmt ⟨none, none, some "super_secret_token", none⟩).data
      = false ∧
    containsSub "[REDACTED]".data
        (argsDebugFmt ⟨none, none, some "super_secret_token", none⟩).data
      = true := by
  refine ⟨?_, ?_, ?_, ?_, ?_, ?_⟩ <;> rfl

/-- When the config.rs and main.rs file sources both parse the same file
content successfully, they agree on the three shared fields. -/
theorem shared_file_fields (p q : String) (cont : FileContent)
    (fv : FileView) (mfv : MainFileView)
    (h1 : loadFile p cont = .ok fv) (h2 : mainLoadFile q cont = .ok mfv) :
    fv.log_level = mfv.log_level ∧ fv.discord_token = mfv.discord_token ∧
      fv.discord_api_url = mfv.discord_api_url := by
  cases cont with
  | absent =>
    cases h1
    cases h2
    exact ⟨rfl, rfl, rfl⟩
  | invalid => exact Except.noConfusion h1
  | table kvs =>
    unfold loadFile at h1
    unfold mainLoadFile at h2
    cases hh : getStrField kvs "host" with
    | error e =>
      simp only [hh] at h2
      exact Except.noConfusion h2
    | ok hostv =>
      cases hp : getU16Field kvs "port" with
      | error e =>
        simp only [hh, hp] at h2
        exact Except.noConfusion h2
      | ok portv =>
        cases hll : getStrField kvs "log_level" with
        | error e =>
          simp only [hll] at h1
          exact Except.noConfusion h1
        | ok ll =>
          cases hdt : getStrField kvs "discord_token" with
          | error e =>
            simp only [hll, hdt] at h1
            exact Except.noConfusion h1
          | ok dt =>
            cases hdu : getStrField kvs "discord_api_url" with
            | error e =>
              simp only [hll, hdt, hdu] at h1
              exact Except.noConfusion h1
            | ok du =>
              simp only [hh, hp, hll, hdt, hdu] at h1 h2
              cases h1
              cases h2
              exact ⟨rfl, rfl, rfl⟩

/-- When the prefixed environment view of main.rs extracts successfully, it
carries exactly the snapshot's values on the three shared fields. -/
theorem mainEnv_ok_fields (env : EnvSnapshot) (ev : MainView)
    (h : mainEnvPrefixedView env = .ok ev) :
    ev.log_level = env.triboferrin_log_level ∧
    ev.discord_token = env.triboferrin_discord_token ∧
    ev.discord_api_url = env.triboferrin_discord_api_url := by
  unfold mainEnvPrefixedView at h
  cases hp : env.triboferrin_port with
  | none =>
    simp only [hp] at h
    cases h
    exact ⟨rfl, rfl, rfl⟩
  | some s =>
    simp only [hp] at h
    cases hps : parsePortStr s with
    | error e =>
      simp only [hps] at h
      exact Except.noConfusion h
    | ok n =>
      simp only [hps] at h
      cases h
      exact ⟨rfl, rfl, rfl⟩

theorem mainMergedOf_log_level (args : MainArgs) (fv : MainFileView)
    (ev : MainView) :
    (mainMergedOf args fv ev).log_level =
      args.log_level.getD (ev.log_level.getD (fv.log_level.getD "info")) :=
  rfl

theorem mainMergedOf_discord_token (args : MainArgs) (fv : MainFileView)
    (ev : MainView) :
    (mainMergedOf args fv ev).discord_token =
      args.discord_token.getD (ev.discord_token.getD
        (fv.discord_token.getD "")) := rfl

theorem mainMergedOf_discord_api_url (args : MainArgs) (fv : MainFileView)
    (ev : MainView) :
    (mainMergedOf args fv ev).discord_api_url =
      args.discord_api_url.or (ev.discord_api_url.or
        fv.discord_api_url) := by
  show args.discord_api_url.or (ev.discord_api_url.or
    (fv.discord_api_url.or none)) = _
  rw [opt_or_none]

/-- C10 counterexample: with `RUST_LOG=debug` set and everything else
unset, on identical inputs `build_config_with_path` resolves
`log_level = "debug"` while the inline merge of main.rs resolves
`log_level = "info"` — the two are not equivalent as claimed. -/
theorem c10_rust_log_divergence :
    build_config_with_path (margsToArgs noMainArgs) "p" emptyFs rustLogOnlyEnv
        = .ok ⟨"debug", "", none⟩ ∧
    mainBuild noMainArgs "p" emptyFs rustLogOnlyEnv
        = .ok ⟨"localhost", 8080, "info", "", none⟩ ∧
    ("debug" : String) ≠ "info" :=
  ⟨rfl, rfl, by decide⟩

/-- C10 amended: whenever `RUST_LOG` is unset, the inline merge of main.rs
and `build_config_with_path`, run on the same CLI fields, filesystem and
environment snapshot, agree on every shared field whenever both succeed.
(When `RUST_LOG` is set they can differ on `log_level`: main.rs has no
`RUST_LOG` merge step.) -/
theorem c10_merges_agree_without_rust_log (margs : MainArgs) (d : String)
    (fs : String → FileContent) (env : EnvSnapshot) (mc : MainConfig)
    (c : Config)
    (hrl : env.rust_log = none)
    (hm : mainBuild margs d fs env = .ok mc)
    (hc : build_config_with_path (margsToArgs margs) d fs env = .ok c) :
    c.log_level = mc.log_level ∧ c.discord_token = mc.discord_token ∧
      c.discord_api_url = mc.discord_api_url := by
  unfold mainBuild at hm
  cases hmf : mainLoadFile (margs.config.getD d) (fs (margs.config.getD d)) with
  | error e =>
    simp only [hmf] at hm
    exact Except.noConfusion hm
  | ok mfv =>
    simp only [hmf] at hm
    cases hev : mainEnvPrefixedView env with
    | error e =>
      simp only [hev] at hm
      exact Except.noConfusion hm
    | ok ev =>
      simp only [hev] at hm
      cases hf : loadFile (chosenPath (margsToArgs margs) d)
          (fs (chosenPath (margsToArgs margs) d)) with
      | error e =>
        unfold build_config_with_path at hc
        rw [hf] at hc
        exact Except.noConfusion hc
      | ok fv =>
        have hcc := build_ok_mergedOf (margsToArgs margs) d fs env fv c hf hc
        have hmc := Except.ok.inj hm
        have hsh := shared_file_fields (chosenPath (margsToArgs margs) d)
          (margs.config.getD d) (fs (margs.config.getD d)) fv mfv hf hmf
        have hevf := mainEnv_ok_fields env ev hev
        subst hcc
        subst hmc
        refine ⟨?_, ?_, ?_⟩
        · rw [mergedOf_log_level, mainMergedOf_log_level, hrl, hsh.1,
            hevf.1]
          rfl
        · rw [mergedOf_discord_token, mainMergedOf_discord_token, hsh.2.1,
            hevf.2.1]
          rfl
        · rw [mergedOf_discord_api_url, mainMergedOf_discord_api_url,
            hsh.2.2, hevf.2.2]
          rfl

/-- Witness for the amended C10 at a concrete input: `RUST_LOG` unset,
`TRIBOFERRIN_DISCORD_TOKEN=env_token`, a file setting the log level — both
merges resolve the same shared fields. -/
theorem c10_merges_agree_witness :
    (⟨none, some "env_token", none, none, none, none⟩
        : EnvSnapshot).rust_log = none ∧
    mainBuild noMainArgs "p" c1Fs
        ⟨none, some "env_token", none, none, none, none⟩
      = .ok ⟨"localhost", 8080, "trace", "env_token", none⟩ ∧
    build_config_with_path (margsToArgs noMainArgs) "p" c1Fs
        ⟨none, some "env_token", none, none, none, none⟩
      = .ok ⟨"trace", "env_token", none⟩ ∧
    (⟨"trace", "env_token", none⟩ : Config).log_level
        = (⟨"localhost", 8080, "trace", "env_token", none⟩
            : MainConfig).log_level :=
  ⟨rfl, rfl, rfl,
    (c10_merges_agree_without_rust_log noMainArgs "p" c1Fs
      ⟨none, some "env_token", none, none, none, none⟩
      ⟨"localhost", 8080, "trace", "env_token", none⟩
      ⟨"trace", "env_token", none⟩ rfl rfl rfl).1⟩

end Triboferrin
